import Mathlib

/-!
Verification of the Ellah art studio single-page application.

The development shallowly embeds the two source files of the repository:
`src/App.tsx` (the UI orchestrator, with the inlined
`services/geminiService.ts` generation client) and `src/types.ts`
(the data model).  JavaScript truthiness on optional string fields is
modelled by `Option String` together with emptiness tests, matching the
`if (x)` checks of the source.  The asynchronous remote call is modelled
by passing the outcome of the call as an explicit argument, and the
sequence of React `setState` updates is modelled as a step relation on
the orchestrator state.
-/

namespace ArtStudio

/-- Mirror of the `GeneratedImage` interface of `src/types.ts`. -/
structure GeneratedImage where
  url : String
  mimeType : String
  deriving DecidableEq, Repr

/-- The `inlineData` field of a response or request part: both fields are
optional in the remote API. -/
structure InlineData where
  mimeType : Option String
  data : Option String
  deriving DecidableEq, Repr

/-- A content part of a request or response: either inline image bytes or
text (each optional). -/
structure Part where
  inlineData : Option InlineData
  text : Option String
  deriving DecidableEq, Repr

/-- `part.inlineData.mimeType || 'image/png'` of `geminiService.ts` line 344:
a missing or empty mime type falls back to the generic default. -/
def defaultMime : Option String → String
  | some m => if m.isEmpty then "image/png" else m
  | none => "image/png"

/-- JavaScript truthiness of `part.inlineData && part.inlineData.data`
(`geminiService.ts` line 343): the part carries inline image bytes exactly
when `inlineData` is present and its `data` is a nonempty string. -/
def partHasImageBytes (p : Part) : Bool :=
  match p.inlineData with
  | some d => !(d.data.getD "").isEmpty
  | none => false

/-- The image built from one part inside the `for` loop of
`geminiService.ts` lines 342-351, `none` when the part carries no inline
image bytes. -/
def partImage (p : Part) : Option GeneratedImage :=
  match p.inlineData with
  | some d =>
    if (d.data.getD "").isEmpty then none
    else
      some { url := "data:" ++ defaultMime d.mimeType ++ ";base64," ++ d.data.getD "",
             mimeType := defaultMime d.mimeType }
  | none => none

/-- The `for ... break` loop of `geminiService.ts` lines 342-352: the first
part carrying inline image bytes wins, later parts are ignored. -/
def findImagePart : List Part → Option GeneratedImage
  | [] => none
  | p :: ps =>
    match partImage p with
    | some img => some img
    | none => findImagePart ps

/-- JavaScript truthiness of `p.text` in `parts.find(p => p.text)`
(`geminiService.ts` line 356). -/
def textTruthy (p : Part) : Bool :=
  match p.text with
  | some t => !t.isEmpty
  | none => false

/-- The outer `catch` of `geminiService.ts` line 367:
`new Error(error.message || "Failed to generate image")`; an empty message
is replaced by the generic fallback. -/
def rethrowMsg (msg : String) : String :=
  if msg = "" then "Failed to generate image" else msg

/-- Outcome of the one round trip to the remote model: a transport or
service rejection carrying a message, or a response whose candidate
content may or may not have a parts list
(`response.candidates?.[0]?.content?.parts`). -/
inductive ModelResponse where
  | failure (msg : String)
  | success (parts : Option (List Part))
  deriving DecidableEq, Repr

/-- Character-list version of the anchored regex alternative match: returns
the remainder of `s` after a leading occurrence of `p`, or `none` when `p`
is not a leading run of `s`. -/
def dropLeading : List Char → List Char → Option (List Char)
  | [], s => some s
  | _ :: _, [] => none
  | c :: p, d :: s => if c = d then dropLeading p s else none

/-- The four alternatives of the regex
`/^data:image\/(png|jpeg|jpg|webp);base64,/` of `geminiService.ts`
line 315, spelled out. -/
def knownDataUriHeads : List String :=
  ["data:image/png;base64,", "data:image/jpeg;base64,",
   "data:image/jpg;base64,", "data:image/webp;base64,"]

/-- Try each regex alternative in turn; the first that is a leading run of
`s` is removed, otherwise `s` is returned unchanged. -/
def stripFirst (s : String) : List String → String
  | [] => s
  | p :: ps =>
    match dropLeading p.data s.data with
    | some rest => String.mk rest
    | none => stripFirst s ps

/-- `geminiService.ts` line 315:
`imageBase64.replace(/^data:image\/(png|jpeg|jpg|webp);base64,/, '')`. -/
def cleanBase64 (imageBase64 : String) : String :=
  stripFirst imageBase64 knownDataUriHeads

/-- The `contents.parts` array of the request built in `geminiService.ts`
lines 317-332: a text part holding the prompt followed by an inline-data
part holding the cleaned base64 payload. -/
def requestParts (imageBase64 imageMimeType prompt : String) : List Part :=
  [ { inlineData := none, text := some prompt },
    { inlineData := some { mimeType := some imageMimeType,
                           data := some (cleanBase64 imageBase64) },
      text := none } ]

/-- `generateEditedImage` of `geminiService.ts` lines 308-369, with the
outcome of the single `ai.models.generateContent` round trip passed as the
`resp` argument.  Every thrown error is routed through the outer `catch`,
hence through `rethrowMsg`. -/
def generateEditedImage (imageBase64 imageMimeType prompt : String)
    (resp : ModelResponse) : Except String GeneratedImage :=
  match resp with
  | .failure msg => .error (rethrowMsg msg)
  | .success none => .error (rethrowMsg "No content generated")
  | .success (some parts) =>
    match findImagePart parts with
    | some img => .ok img
    | none =>
      match parts.find? textTruthy with
      | some p =>
        .error (rethrowMsg ("The model returned text instead of an image: \""
          ++ (p.text.getD "").take 100 ++ "...\""))
      | none => .error (rethrowMsg "No image data found in response")

theorem partImage_eq_none_of_no_bytes (p : Part)
    (h : partHasImageBytes p = false) : partImage p = none := by
  unfold partHasImageBytes at h
  unfold partImage
  cases hd : p.inlineData with
  | none => rfl
  | some d =>
    rw [hd] at h
    simp only [Bool.not_eq_false'] at h
    simp [h]

theorem findImagePart_skip (p : Part) (ps : List Part)
    (h : partHasImageBytes p = false) :
    findImagePart (p :: ps) = findImagePart ps := by
  simp [findImagePart, partImage_eq_none_of_no_bytes p h]

theorem findImagePart_append (pre rest : List Part)
    (h : ∀ q ∈ pre, partHasImageBytes q = false) :
    findImagePart (pre ++ rest) = findImagePart rest := by
  induction pre with
  | nil => rfl
  | cons q qs ih =>
    have hq := h q (List.mem_cons_self _ _)
    have hqs : ∀ r ∈ qs, partHasImageBytes r = false :=
      fun r hr => h r (List.mem_cons_of_mem _ hr)
    rw [List.cons_append, findImagePart_skip q _ hq, ih hqs]

theorem partImage_of_bytes (p : Part) (d : InlineData) (s : String)
    (hd : p.inlineData = some d) (hs : d.data = some s)
    (hne : s.isEmpty = false) :
    partImage p = some { url := "data:" ++ defaultMime d.mimeType
                                ++ ";base64," ++ s,
                         mimeType := defaultMime d.mimeType } := by
  simp [partImage, hd, hs, hne]

/-- Claim C1: the generation client scans the response parts in order and
returns the first part carrying inline image bytes, ignoring all later
parts; a missing mime type defaults to `image/png`, and the result url is
`data:` ++ mimeType ++ `;base64,` ++ data. -/
theorem generate_returns_first_image_part
    (ib mt pr : String) (pre post : List Part) (p : Part)
    (d : InlineData) (s : String)
    (hpre : ∀ q ∈ pre, partHasImageBytes q = false)
    (hd : p.inlineData = some d) (hs : d.data = some s)
    (hne : s.isEmpty = false) :
    generateEditedImage ib mt pr (.success (some (pre ++ p :: post)))
      = .ok { url := "data:" ++ defaultMime d.mimeType ++ ";base64," ++ s,
              mimeType := defaultMime d.mimeType }
    ∧ (d.mimeType = none → defaultMime d.mimeType = "image/png") := by
  constructor
  · have h1 : findImagePart (pre ++ p :: post)
        = some { url := "data:" ++ defaultMime d.mimeType ++ ";base64," ++ s,
                 mimeType := defaultMime d.mimeType } := by
      rw [findImagePart_append pre (p :: post) hpre]
      simp [findImagePart, partImage_of_bytes p d s hd hs hne]
    simp [generateEditedImage, h1]
  · intro h
    rw [h]
    rfl

/-- Witness for C1: the scenario of the spec, a single part with mime type
`image/png` and data `AAAA` yields the url `data:image/png;base64,AAAA`. -/
theorem generate_returns_first_image_part_witness :
    generateEditedImage "AAAA" "image/png" "p"
        (.success (some [{ inlineData := some { mimeType := some "image/png",
                                                data := some "AAAA" },
                           text := none }]))
      = .ok { url := "data:image/png;base64,AAAA", mimeType := "image/png" } := by
  have h := generate_returns_first_image_part "AAAA" "image/png" "p"
    [] [] { inlineData := some { mimeType := some "image/png",
                                 data := some "AAAA" }, text := none }
    { mimeType := some "image/png", data := some "AAAA" } "AAAA"
    (by intro q hq; cases hq) rfl rfl rfl
  exact h.1

theorem findImagePart_eq_none (parts : List Part)
    (h : ∀ p ∈ parts, partHasImageBytes p = false) :
    findImagePart parts = none := by
  have h2 := findImagePart_append parts [] h
  simpa using h2

theorem find?_text_first (pre : List Part) (p : Part) (post : List Part)
    (hpre : ∀ q ∈ pre, textTruthy q = false) (hp : textTruthy p = true) :
    (pre ++ p :: post).find? textTruthy = some p := by
  induction pre with
  | nil => simp [List.find?, hp]
  | cons q qs ih =>
    have hq := hpre q (List.mem_cons_self _ _)
    have hqs : ∀ r ∈ qs, textTruthy r = false :=
      fun r hr => hpre r (List.mem_cons_of_mem _ hr)
    simp [List.find?, hq, ih hqs]

theorem rethrowMsg_of_ne (msg : String) (h : ¬ msg = "") :
    rethrowMsg msg = msg := by
  simp [rethrowMsg, h]

theorem textErrMsg_ne_empty (x : String) :
    ¬ ("The model returned text instead of an image: \"" ++ x ++ "...\"" = "") := by
  intro h
  have hlen := congrArg String.length h
  rw [String.length_append, String.length_append] at hlen
  have h1 : (0:Nat) <
      ("The model returned text instead of an image: \"" : String).length := by decide
  have h0 : ("" : String).length = 0 := rfl
  omega

/-- Claim C2: when no response part carries inline image bytes, the client
fails; with a first nonempty-text part its error message contains the first
100 characters of that text, and with no text at all it fails with the
generic no-image-data message. -/
theorem generate_fails_without_image_part
    (ib mt pr : String) (parts : List Part)
    (hni : ∀ p ∈ parts, partHasImageBytes p = false) :
    (∀ pre p post t, parts = pre ++ p :: post →
        (∀ q ∈ pre, textTruthy q = false) → p.text = some t →
        t.isEmpty = false →
        ∃ a b, generateEditedImage ib mt pr (.success (some parts))
          = .error (a ++ t.take 100 ++ b)) ∧
    ((∀ p ∈ parts, textTruthy p = false) →
        generateEditedImage ib mt pr (.success (some parts))
          = .error "No image data found in response") := by
  have hfi := findImagePart_eq_none parts hni
  constructor
  · intro pre p post t hdecomp hpre ht hne
    have hp : textTruthy p = true := by simp [textTruthy, ht, hne]
    have hfind : parts.find? textTruthy = some p := by
      rw [hdecomp]
      exact find?_text_first pre p post hpre hp
    refine ⟨"The model returned text instead of an image: \"", "...\"", ?_⟩
    have hnemsg := textErrMsg_ne_empty (t.take 100)
    simp [generateEditedImage, hfi, hfind, ht, rethrowMsg_of_ne _ hnemsg]
  · intro hnt
    have hfind : parts.find? textTruthy = none :=
      List.find?_eq_none.mpr (by intro x hx; simp [hnt x hx])
    simp [generateEditedImage, hfi, hfind,
      rethrowMsg_of_ne "No image data found in response" (by decide)]

/-- Witness for C2: the scenario of the spec, a single text part
`Sorry, cannot comply` yields an error message containing that text
truncated to 100 characters. -/
theorem generate_fails_without_image_part_witness :
    ∃ a b, generateEditedImage "i" "m" "p"
        (.success (some [{ inlineData := none, text := some "Sorry, cannot comply" }]))
      = .error (a ++ ("Sorry, cannot comply").take 100 ++ b) :=
  (generate_fails_without_image_part "i" "m" "p"
      [{ inlineData := none, text := some "Sorry, cannot comply" }]
      (by decide)).1
    [] { inlineData := none, text := some "Sorry, cannot comply" } []
    "Sorry, cannot comply" rfl (by intro q hq; cases hq) rfl (by decide)

theorem dropLeading_append (p r : List Char) : dropLeading p (p ++ r) = some r := by
  induction p with
  | nil => rfl
  | cons c cs ih => simp [dropLeading, ih]

theorem dropLeading_sound (p : List Char) :
    ∀ s r, dropLeading p s = some r → s = p ++ r := by
  induction p with
  | nil =>
    intro s r h
    simp [dropLeading] at h
    simp [h]
  | cons c cs ih =>
    intro s r h
    cases s with
    | nil => simp [dropLeading] at h
    | cons d ds =>
      simp only [dropLeading] at h
      by_cases hc : c = d
      · subst hc
        simp only [if_pos rfl] at h
        have hds := ih ds r h
        simp [hds]
      · simp [hc] at h

theorem dropLeading_eq_none (p s : String)
    (h : ∀ r : String, ¬ s = p ++ r) :
    dropLeading p.data s.data = none := by
  cases hd : dropLeading p.data s.data with
  | none => rfl
  | some rest =>
    exfalso
    have hs := dropLeading_sound p.data s.data rest hd
    apply h (String.mk rest)
    apply String.ext
    rw [String.data_append]
    exact hs

theorem mk_data (s : String) : String.mk s.data = s := rfl

/-- Counterexample to claim C3 as stated: the regex of
`geminiService.ts` line 315 only matches the mime types png, jpeg, jpg and
webp, so an input with an `image/gif` data-URI head is sent unchanged
rather than stripped. -/
theorem strip_any_mime_counterexample :
    cleanBase64 "data:image/gif;base64,AAAA" = "data:image/gif;base64,AAAA" ∧
    ¬ ("data:image/gif;base64,AAAA" : String) = "AAAA" := by
  constructor
  · rfl
  · decide

/-- Claim C3 (amended): the data field sent to the model is the input with
a leading data-URI head removed when the mime type is one of png, jpeg,
jpg or webp, and is the input unchanged otherwise. -/
theorem generate_strips_known_data_uri_heads (b mt pr rest : String) :
    (requestParts b mt pr).map Part.inlineData
      = [none, some { mimeType := some mt, data := some (cleanBase64 b) }] ∧
    (b = "data:image/png;base64," ++ rest → cleanBase64 b = rest) ∧
    (b = "data:image/jpeg;base64," ++ rest → cleanBase64 b = rest) ∧
    (b = "data:image/jpg;base64," ++ rest → cleanBase64 b = rest) ∧
    (b = "data:image/webp;base64," ++ rest → cleanBase64 b = rest) ∧
    ((∀ r, ¬ b = "data:image/png;base64," ++ r) →
     (∀ r, ¬ b = "data:image/jpeg;base64," ++ r) →
     (∀ r, ¬ b = "data:image/jpg;base64," ++ r) →
     (∀ r, ¬ b = "data:image/webp;base64," ++ r) →
     cleanBase64 b = b) := by
  refine ⟨rfl, ?_, ?_, ?_, ?_, ?_⟩
  · intro hb
    subst hb
    exact mk_data rest
  · intro hb
    subst hb
    exact mk_data rest
  · intro hb
    subst hb
    exact mk_data rest
  · intro hb
    subst hb
    exact mk_data rest
  · intro h1 h2 h3 h4
    have e1 := dropLeading_eq_none "data:image/png;base64," b h1
    have e2 := dropLeading_eq_none "data:image/jpeg;base64," b h2
    have e3 := dropLeading_eq_none "data:image/jpg;base64," b h3
    have e4 := dropLeading_eq_none "data:image/webp;base64," b h4
    simp only [cleanBase64, knownDataUriHeads, stripFirst, e1, e2, e3, e4]

/-- Witness for the amended C3: a png data-URI head is stripped. -/
theorem generate_strips_known_data_uri_heads_witness :
    cleanBase64 "data:image/png;base64,AAAA" = "AAAA" :=
  (generate_strips_known_data_uri_heads "data:image/png;base64,AAAA"
      "m" "p" "AAAA").2.1 (by decide)

/-- The `stage` field of the `ProcessingState` interface of
`src/types.ts`. -/
inductive Stage where
  | idle
  | uploading
  | processing
  | complete
  deriving DecidableEq, Repr

/-- Mirror of the `ProcessingState` interface of `src/types.ts`. -/
structure ProcessingState where
  isLoading : Bool
  error : Option String
  stage : Stage
  deriving DecidableEq, Repr

/-- Mirror of the `ImageFile` interface of `src/types.ts`; the `file`
field, an opaque browser `File` handle that the orchestrator never
inspects, is omitted. -/
structure ImageFile where
  previewUrl : String
  base64 : String
  mimeType : String
  deriving DecidableEq, Repr

/-- The full orchestrator state of the `App` component of `src/App.tsx`:
the four `useState` hooks. -/
structure AppState where
  prompt : String
  sourceImage : Option ImageFile
  resultImage : Option GeneratedImage
  state : ProcessingState
  deriving DecidableEq, Repr

/-- `DEFAULT_PROMPT` of `src/App.tsx` line 7. -/
def DEFAULT_PROMPT : String :=
  "Using the reference image, create a hyper-realistic modern oil painting with soft directional lighting. Preserve the outfit details. Add refined brush textures and natural skin tones. Background should be a soft, blurred studio gradient in deep navy and charcoal. Ultra-detailed realism, elegant fine-art finish. Portrait size: 4:5 ratio."

/-- The initial values of the four `useState` hooks (`src/App.tsx`
lines 12-19). -/
def initialState : AppState :=
  { prompt := DEFAULT_PROMPT
    sourceImage := none
    resultImage := none
    state := { isLoading := false, error := none, stage := .idle } }

/-- The `reader.onloadend` callback of `processFile` (`src/App.tsx`
lines 32-41): store the new source image, drop any prior result, reset the
processing state. -/
def processFileDone (σ : AppState) (img : ImageFile) : AppState :=
  { σ with sourceImage := some img
           resultImage := none
           state := { isLoading := false, error := none, stage := .idle } }

/-- The first `setState` of `loadExample` (`src/App.tsx` line 47). -/
def loadExampleStart (σ : AppState) : AppState :=
  { σ with state := { σ.state with isLoading := true, stage := .uploading } }

/-- The `setState` inside the `catch` of `loadExample` (`src/App.tsx`
line 54); only the error field changes. -/
def loadExampleCatch (σ : AppState) : AppState :=
  { σ with state := { σ.state with
      error := some "Failed to load example image. Please upload one manually." } }

/-- The `setState` inside the `finally` of `loadExample` (`src/App.tsx`
line 56); only `isLoading` is cleared. -/
def loadExampleFinally (σ : AppState) : AppState :=
  { σ with state := { σ.state with isLoading := false } }

/-- The net effect of `loadExample` (`src/App.tsx` lines 45-58) once the
fetch and, on success, the file reader have settled.  `outcome` is
`some img` when the fetch succeeded and the reader produced `img`, `none`
when the fetch threw.  On success the `finally` update runs when
`processFile` has merely started the reader, so `processFileDone` comes
last; on failure only the `catch` and `finally` updates run. -/
def loadExample (σ : AppState) (outcome : Option ImageFile) : AppState :=
  match outcome with
  | some img => processFileDone (loadExampleFinally (loadExampleStart σ)) img
  | none => loadExampleFinally (loadExampleCatch (loadExampleStart σ))

/-- JavaScript `String.prototype.trim`: remove leading and trailing
whitespace.  Defined on the character list so that it is structurally
recursive and kernel-evaluable. -/
def jsTrim (s : String) : String :=
  String.mk (((s.data.dropWhile Char.isWhitespace).reverse.dropWhile
    Char.isWhitespace).reverse)

/-- A precondition-failure `setState` of `handleGenerate` (`src/App.tsx`
lines 62 and 66); only the error field changes. -/
def setPreError (σ : AppState) (msg : String) : AppState :=
  { σ with state := { σ.state with error := some msg } }

/-- The `setState` of `src/App.tsx` line 70, entering the processing
stage. -/
def setGenerating (σ : AppState) : AppState :=
  { σ with state := { isLoading := true, error := none, stage := .processing } }

/-- The success path of `handleGenerate` (`src/App.tsx` lines 74-75):
store the result, then mark the state complete. -/
def setComplete (σ : AppState) (img : GeneratedImage) : AppState :=
  { σ with resultImage := some img
           state := { isLoading := false, error := none, stage := .complete } }

/-- The `catch` of `handleGenerate` (`src/App.tsx` lines 76-82):
`error.message || "Failed to process image. Please try again."`. -/
def setGenFailed (σ : AppState) (msg : String) : AppState :=
  { σ with state := { isLoading := false
                      error := some (if msg = ""
                        then "Failed to process image. Please try again." else msg)
                      stage := .idle } }

/-- `handleGenerate` of `src/App.tsx` lines 60-83, with the outcome of the
awaited `generateEditedImage` call passed as the `client` argument.  The
returned boolean records whether the remote generation client was called;
the returned state is the state once the attempt has fully settled. -/
def handleGenerate (σ : AppState) (client : Except String GeneratedImage) :
    AppState × Bool :=
  match σ.sourceImage with
  | none => (setPreError σ "Please upload an image first.", false)
  | some _ =>
    if jsTrim σ.prompt = "" then
      (setPreError σ "Please enter a prompt.", false)
    else
      match client with
      | .ok img => (setComplete (setGenerating σ) img, true)
      | .error msg => (setGenFailed (setGenerating σ) msg, true)

/-- `clearAll` of `src/App.tsx` lines 85-91. -/
def clearAll (σ : AppState) : AppState :=
  { prompt := DEFAULT_PROMPT
    sourceImage := none
    resultImage := none
    state := { isLoading := false, error := none, stage := .idle } }

/-- One atomic `setState`/`setSourceImage`/`setResultImage`/`setPrompt`
update of the orchestrator, as fired by the user-triggered callbacks of
`src/App.tsx`.  Each constructor is one state update of the source;
asynchronous callbacks contribute their updates as separate steps in
program order. -/
inductive Step : AppState → AppState → Prop where
  | fileDone (σ : AppState) (img : ImageFile) : Step σ (processFileDone σ img)
  | exStart (σ : AppState) : Step σ (loadExampleStart σ)
  | exCatch (σ : AppState) : Step σ (loadExampleCatch σ)
  | exFinally (σ : AppState) : Step σ (loadExampleFinally σ)
  | genNoImage (σ : AppState) (h : σ.sourceImage = none) :
      Step σ (setPreError σ "Please upload an image first.")
  | genNoPrompt (σ : AppState) (h : jsTrim σ.prompt = "") :
      Step σ (setPreError σ "Please enter a prompt.")
  | genStart (σ : AppState) : Step σ (setGenerating σ)
  | genComplete (σ : AppState) (img : GeneratedImage) : Step σ (setComplete σ img)
  | genFail (σ : AppState) (msg : String) : Step σ (setGenFailed σ msg)
  | clear (σ : AppState) : Step σ (clearAll σ)
  | editPrompt (σ : AppState) (p : String) : Step σ { σ with prompt := p }
  | resetResult (σ : AppState) : Step σ { σ with resultImage := none }

/-- A state the orchestrator can be in: reachable from the initial hook
values by the atomic updates. -/
def Reachable (σ : AppState) : Prop :=
  Relation.ReflTransGen Step initialState σ

/-- Claim C4: when a generation attempt is in flight (an image is selected
and the prompt is not blank) and the client rejects, the final state has
stage idle, isLoading false, the error set to the failure message (or the
default text for an empty message), and source and result images exactly
as before the attempt. -/
theorem generate_failure_resets_state
    (σ : AppState) (img : ImageFile) (msg : String)
    (hsrc : σ.sourceImage = some img) (hpr : ¬ jsTrim σ.prompt = "") :
    (handleGenerate σ (.error msg)).1.state.stage = .idle ∧
    (handleGenerate σ (.error msg)).1.state.isLoading = false ∧
    (handleGenerate σ (.error msg)).1.state.error
      = some (if msg = "" then "Failed to process image. Please try again."
              else msg) ∧
    (handleGenerate σ (.error msg)).1.sourceImage = σ.sourceImage ∧
    (handleGenerate σ (.error msg)).1.resultImage = σ.resultImage := by
  simp [handleGenerate, hsrc, hpr, setGenFailed, setGenerating]

/-- Witness for C4: a concrete rejected attempt. -/
theorem generate_failure_resets_state_witness :
    (handleGenerate
        { prompt := "make art"
          sourceImage := some { previewUrl := "u", base64 := "b", mimeType := "image/png" }
          resultImage := none
          state := { isLoading := true, error := none, stage := .processing } }
        (.error "boom")).1.state.stage = .idle :=
  (generate_failure_resets_state _
    { previewUrl := "u", base64 := "b", mimeType := "image/png" } "boom"
    rfl (by decide)).1

/-- Claim C5: when the generation client resolves with an image, the final
state has stage complete, isLoading false, the result set to the returned
image, and a null error. -/
theorem generate_success_completes
    (σ : AppState) (img : ImageFile) (res : GeneratedImage)
    (hsrc : σ.sourceImage = some img) (hpr : ¬ jsTrim σ.prompt = "") :
    (handleGenerate σ (.ok res)).1.state.stage = .complete ∧
    (handleGenerate σ (.ok res)).1.state.isLoading = false ∧
    (handleGenerate σ (.ok res)).1.resultImage = some res ∧
    (handleGenerate σ (.ok res)).1.state.error = none := by
  simp [handleGenerate, hsrc, hpr, setComplete, setGenerating]

/-- Witness for C5: a concrete successful attempt. -/
theorem generate_success_completes_witness :
    (handleGenerate
        { prompt := "make art"
          sourceImage := some { previewUrl := "u", base64 := "b", mimeType := "image/png" }
          resultImage := none
          state := { isLoading := false, error := none, stage := .idle } }
        (.ok { url := "data:image/png;base64,AAAA", mimeType := "image/png" })).1.resultImage
      = some { url := "data:image/png;base64,AAAA", mimeType := "image/png" } :=
  (generate_success_completes _
    { previewUrl := "u", base64 := "b", mimeType := "image/png" }
    { url := "data:image/png;base64,AAAA", mimeType := "image/png" }
    rfl (by decide)).2.2.1

/-- Claim C6: invoking generate with no selected image sets the error to
exactly "Please upload an image first.", leaves the stage idle, and makes
no remote call. -/
theorem generate_without_image_errors
    (σ : AppState) (client : Except String GeneratedImage)
    (hsrc : σ.sourceImage = none) (hstage : σ.state.stage = .idle) :
    (handleGenerate σ client).1.state.error
      = some "Please upload an image first." ∧
    (handleGenerate σ client).1.state.stage = .idle ∧
    (handleGenerate σ client).2 = false := by
  simp [handleGenerate, hsrc, setPreError, hstage]

/-- Witness for C6: generate invoked on the initial state. -/
theorem generate_without_image_errors_witness :
    (handleGenerate initialState (.ok { url := "u", mimeType := "m" })).1.state.error
      = some "Please upload an image first." :=
  (generate_without_image_errors initialState
    (.ok { url := "u", mimeType := "m" }) rfl rfl).1

/-- Claim C7: clearing resets the prompt to the fixed default and nulls
the source image, the result image and the error, with stage idle and
isLoading false, regardless of the prior state. -/
theorem clearAll_resets (σ : AppState) :
    clearAll σ
      = { prompt := DEFAULT_PROMPT
          sourceImage := none
          resultImage := none
          state := { isLoading := false, error := none, stage := .idle } } := rfl

/-- Claim C10: a precondition failure of generate (no image, or a prompt
that is blank after trimming) changes only the error field: stage,
isLoading, source image, result image and prompt keep their prior values;
a whitespace-only prompt with an image selected is rejected with
"Please enter a prompt." and the client is not called. -/
theorem generate_precondition_frame
    (σ : AppState) (client : Except String GeneratedImage)
    (h : σ.sourceImage = none ∨ jsTrim σ.prompt = "") :
    (handleGenerate σ client).1.state.stage = σ.state.stage ∧
    (handleGenerate σ client).1.state.isLoading = σ.state.isLoading ∧
    (handleGenerate σ client).1.sourceImage = σ.sourceImage ∧
    (handleGenerate σ client).1.resultImage = σ.resultImage ∧
    (handleGenerate σ client).1.prompt = σ.prompt ∧
    (handleGenerate σ client).2 = false ∧
    (∀ i, σ.sourceImage = some i →
      (handleGenerate σ client).1.state.error = some "Please enter a prompt.") := by
  cases hsrc : σ.sourceImage with
  | none =>
    simp [handleGenerate, hsrc, setPreError]
  | some i =>
    have hpr : jsTrim σ.prompt = "" := by
      cases h with
      | inl h0 => rw [hsrc] at h0; cases h0
      | inr h0 => exact h0
    simp [handleGenerate, hsrc, hpr, setPreError]

/-- Witness for C10: a whitespace-only prompt is a nonempty string and is
still rejected without a remote call. -/
theorem generate_precondition_frame_witness :
    ¬ ("   " : String) = "" ∧
    (handleGenerate
        { prompt := "   "
          sourceImage := some { previewUrl := "u", base64 := "b", mimeType := "image/png" }
          resultImage := none
          state := { isLoading := false, error := none, stage := .idle } }
        (.error "never")).1.state.error = some "Please enter a prompt." ∧
    (handleGenerate
        { prompt := "   "
          sourceImage := some { previewUrl := "u", base64 := "b", mimeType := "image/png" }
          resultImage := none
          state := { isLoading := false, error := none, stage := .idle } }
        (.error "never")).2 = false := by
  refine ⟨by decide, ?_, ?_⟩
  · exact (generate_precondition_frame _ (.error "never") (Or.inr (by decide))).2.2.2.2.2.2
      { previewUrl := "u", base64 := "b", mimeType := "image/png" } rfl
  · exact (generate_precondition_frame _ (.error "never") (Or.inr (by decide))).2.2.2.2.2.1

/-- Counterexample to claim C8 as stated: when the example fetch fails,
the `catch` of `loadExample` sets the error and the `finally` clears
`isLoading`, but nothing resets the stage, which stays `uploading` instead
of returning to `idle`. -/
theorem example_failure_keeps_uploading_stage :
    (loadExample initialState none).state.isLoading = false ∧
    (loadExample initialState none).state.stage = .uploading ∧
    ¬ (loadExample initialState none).state.stage = .idle := by
  decide

/-- Claim C8 (amended): whenever the example fetch settles, isLoading is
cleared to false; on success the file-reader completion returns the stage
to idle, while on failure the stage remains uploading with the error
set. -/
theorem example_settle_clears_loading (σ : AppState) (outcome : Option ImageFile) :
    (loadExample σ outcome).state.isLoading = false ∧
    (∀ img, outcome = some img → (loadExample σ outcome).state.stage = .idle) ∧
    (outcome = none → (loadExample σ outcome).state.stage = .uploading) := by
  cases outcome with
  | some img =>
    simp [loadExample, processFileDone, loadExampleFinally, loadExampleStart]
  | none =>
    simp [loadExample, loadExampleFinally, loadExampleCatch, loadExampleStart]

/-- Witness for the amended C8: a successful example load at a concrete
state ends at stage idle. -/
theorem example_settle_clears_loading_witness :
    (loadExample initialState
        (some { previewUrl := "u", base64 := "b", mimeType := "image/jpeg" })).state.stage
      = .idle :=
  (example_settle_clears_loading initialState
      (some { previewUrl := "u", base64 := "b", mimeType := "image/jpeg" })).2.1
    { previewUrl := "u", base64 := "b", mimeType := "image/jpeg" } rfl

/-- Counterexample to claim C9 as stated: after a failed example fetch the
orchestrator is in a reachable state with stage `uploading` but isLoading
false, so isLoading is not equivalent to the stage being uploading or
processing. -/
theorem loading_stage_iff_counterexample :
    Reachable (loadExampleFinally (loadExampleCatch (loadExampleStart initialState))) ∧
    ¬ ((loadExampleFinally (loadExampleCatch (loadExampleStart
          initialState))).state.isLoading = true ↔
       ((loadExampleFinally (loadExampleCatch (loadExampleStart
            initialState))).state.stage = .uploading ∨
        (loadExampleFinally (loadExampleCatch (loadExampleStart
            initialState))).state.stage = .processing)) := by
  constructor
  · exact Relation.ReflTransGen.head (Step.exStart _)
      (Relation.ReflTransGen.head (Step.exCatch _)
        (Relation.ReflTransGen.head (Step.exFinally _) Relation.ReflTransGen.refl))
  · decide

/-- Claim C9 (amended): in every reachable orchestrator state, isLoading
true implies the stage is uploading or processing; the converse direction
of the claimed equivalence fails, so isLoading is not derivable from the
stage. -/
theorem loading_implies_inflight_stage (σ : AppState) (h : Reachable σ) :
    σ.state.isLoading = true →
    σ.state.stage = .uploading ∨ σ.state.stage = .processing := by
  induction h with
  | refl => intro hl; cases hl
  | tail hs hstep ih =>
    cases hstep with
    | fileDone img => simp [processFileDone]
    | exStart => simp [loadExampleStart]
    | exCatch => exact ih
    | exFinally => simp [loadExampleFinally]
    | genNoImage h0 => exact ih
    | genNoPrompt h0 => exact ih
    | genStart => simp [setGenerating]
    | genComplete img => simp [setComplete]
    | genFail msg => simp [setGenFailed]
    | clear => simp [clearAll]
    | editPrompt p => exact ih
    | resetResult => exact ih

/-- Witness for the amended C9: right after the example fetch starts, the
state is reachable with isLoading true, and its stage is uploading or
processing. -/
theorem loading_implies_inflight_stage_witness :
    (loadExampleStart initialState).state.stage = Stage.uploading ∨
    (loadExampleStart initialState).state.stage = Stage.processing :=
  loading_implies_inflight_stage (loadExampleStart initialState)
    (Relation.ReflTransGen.single (Step.exStart initialState)) rfl

end ArtStudio
